import Mathlib

/-!
Shallow embedding of the mock request layer of the product management demo app
(localService/MockRequests.js). Entities are untyped records held in named collections
of an in-memory mock server store; the handlers simulate the backend function imports
EditProduct, CopyProduct and ActivateProduct plus the post creation defaulting of
product drafts. JS objects are modelled as functions from field names to optional
values, where none models an absent field (JS undefined); this is observationally
faithful for this code, which reads fields, assigns fields, deletes fields, merges
records with jQuery.extend (which skips undefined source values, exactly as the
function model does) and never enumerates keys of an entity.
-/

namespace EPM

/-- Values stored in entity fields. The only JS object shapes this code stores inside a
field are the addressing metadata triple built by extendMetadata and the deferred Images
link, modelled structurally by dedicated constructors. -/
inductive Value where
  | vStr : String → Value
  | vBool : Bool → Value
  | vNum : Int → Value
  | vMeta : String → String → String → Value
  | vDeferred : String → Value
deriving DecidableEq, Repr

/-- An entity record: a JS object observed through field lookup. -/
def Entity : Type := String → Option Value

/-- The empty object literal. -/
def Entity.empty : Entity := fun _ => none

/-- Field assignment. -/
def Entity.set (e : Entity) (k : String) (v : Value) : Entity :=
  fun q => if q = k then some v else e q

/-- Assignment of a possibly undefined value. Assigning undefined to a field is
observationally the same as the field being absent in this code (truthiness tests,
strict equality against undefined, jQuery.extend and JSON serialisation all treat the
two alike), so it is modelled as erasing the field. -/
def Entity.setOpt (e : Entity) (k : String) (v : Option Value) : Entity :=
  fun q => if q = k then v else e q

/-- The delete operator on a field. -/
def Entity.del (e : Entity) (k : String) : Entity :=
  fun q => if q = k then none else e q

/-- jQuery.extend (shallow): fields of the source win, remaining fields come from the
target. Undefined source fields are skipped by jQuery.extend, which the function model
gives for free. -/
def Entity.extend (target source : Entity) : Entity :=
  fun q => match source q with
    | some v => some v
    | none => target q

/-- Builds an entity from an object literal given as a key value list. -/
def Entity.ofList (l : List (String × Value)) : Entity :=
  fun q => (l.find? (fun p => p.1 = q)).map (fun p => p.2)

/-- JS truthiness of a field value (undefined, false, 0 and the empty string are falsy;
objects are truthy). -/
def truthy : Option Value → Bool
  | none => false
  | some (.vStr s) => !(s == "")
  | some (.vBool b) => b
  | some (.vNum n) => !(n == 0)
  | some (.vMeta _ _ _) => true
  | some (.vDeferred _) => true

/-- JS strict equality between two field values. Strict equality on two objects is
reference equality; the code only ever compares primitive key values, and the two object
shaped constructors are always freshly allocated in the source, so they are never
strictly equal to a lookup key. -/
def jsEq : Option Value → Option Value → Bool
  | none, none => true
  | some (.vStr a), some (.vStr b) => a == b
  | some (.vBool a), some (.vBool b) => a == b
  | some (.vNum a), some (.vNum b) => a == b
  | _, _ => false

/-- JS string coercion of a field value, used by the string concatenations that build
addressing metadata URIs. -/
def jsToString : Option Value → String
  | none => "undefined"
  | some (.vStr s) => s
  | some (.vBool b) => if b then "true" else "false"
  | some (.vNum n) => toString n
  | some (.vMeta _ _ _) => "[object Object]"
  | some (.vDeferred _) => "[object Object]"

/-- The mock server store together with the per instance state of the MockRequests
object: the named entity collections reached through getEntitySetData and
setEntitySetData, the monotonically increasing draft id counter iLastId and the root
URI. -/
structure ServerState where
  products : List Entity
  productDrafts : List Entity
  mainCategories : List Entity
  subCategories : List Entity
  weightUnits : List Entity
  dimensionUnits : List Entity
  lastId : Nat
  rootUri : String

/-- Store contract getEntitySetData(name): the rows of a named collection. -/
def getEntitySetData (st : ServerState) : String → List Entity
  | "Products" => st.products
  | "ProductDrafts" => st.productDrafts
  | "MainCategories" => st.mainCategories
  | "SubCategories" => st.subCategories
  | "WeightUnits" => st.weightUnits
  | "DimensionUnits" => st.dimensionUnits
  | _ => []

/-- Store contract setEntitySetData(name, rows): whole collection replace on write. -/
def setEntitySetData (st : ServerState) : String → List Entity → ServerState
  | "Products", rows => { st with products := rows }
  | "ProductDrafts", rows => { st with productDrafts := rows }
  | "MainCategories", rows => { st with mainCategories := rows }
  | "SubCategories", rows => { st with subCategories := rows }
  | "WeightUnits", rows => { st with weightUnits := rows }
  | "DimensionUnits", rows => { st with dimensionUnits := rows }
  | _, _ => st

/-- The key name actually used by getFirstFoundEntity: the optional third parameter
when it is a truthy string, otherwise the literal Id. -/
def effectiveKey : Option String → String
  | some k => if k = "" then "Id" else k
  | none => "Id"

/-- getFirstFoundEntity: jQuery.grep of the collection for rows whose key field is
strictly equal to the probe value, then aFound.length > 0 && aFound[0]. A result of
none models the JS value false returned on a miss; some row is the first matching row. -/
def _getFirstFoundEntity (st : ServerState) (sEntitySetName : String) (sId : Option Value)
    (sKeyName : Option String) : Option Entity :=
  (getEntitySetData st sEntitySetName).find? (fun e => jsEq (e (effectiveKey sKeyName)) sId)

/-- Field access on a lookup result. On the sentinel false the JS property access
yields undefined (the primitive is boxed, no exception is raised), modelled by none. -/
def fieldOf (r : Option Entity) (k : String) : Option Value :=
  match r with
  | some e => e k
  | none => none

/-- jQuery.extend of an empty object literal with a lookup result: copies the entity
when the lookup hit, and copies nothing when the source is the non object sentinel
false, which jQuery.extend skips. -/
def extendFromLookup (r : Option Entity) : Entity :=
  match r with
  | some p => Entity.extend Entity.empty p
  | none => Entity.empty

def _getProduct (st : ServerState) (sProductId : Option Value) : Option Entity :=
  _getFirstFoundEntity st "Products" sProductId none

def _getProductDraft (st : ServerState) (sDraftId : Option Value) : Option Entity :=
  _getFirstFoundEntity st "ProductDrafts" sDraftId none

def _getMainCategory (st : ServerState) (sMainCategoryId : Option Value) : Option Entity :=
  _getFirstFoundEntity st "MainCategories" sMainCategoryId none

def _getSubCategory (st : ServerState) (sSubCategoryId : Option Value) : Option Entity :=
  _getFirstFoundEntity st "SubCategories" sSubCategoryId none

def _getDimensionText (st : ServerState) (sDimensionUnit : Option Value) : Option Value :=
  fieldOf (_getFirstFoundEntity st "DimensionUnits" sDimensionUnit (some "Unit")) "Shorttext"

def _getDimensionUnit (st : ServerState) (sDimensionText : Option Value) : Option Value :=
  fieldOf (_getFirstFoundEntity st "DimensionUnits" sDimensionText (some "Shorttext")) "Unit"

def _getWeightText (st : ServerState) (sWeightUnit : Option Value) : Option Value :=
  fieldOf (_getFirstFoundEntity st "WeightUnits" sWeightUnit (some "Unit")) "Shorttext"

def _getWeightUnit (st : ServerState) (sWeightText : Option Value) : Option Value :=
  fieldOf (_getFirstFoundEntity st "WeightUnits" sWeightText (some "Shorttext")) "Unit"

/-- getNewId: increments the in process counter and returns it. -/
def _getNewId (st : ServerState) : ServerState × Nat :=
  ({ st with lastId := st.lastId + 1 }, st.lastId + 1)

/-- updateEntity: whole collection map that jQuery.extends every row whose Id is
strictly equal to the given id with the updated properties. -/
def _updateEntity (st : ServerState) (sEntitySetName : String) (sId : Option Value)
    (oUpdatedProperties : Entity) : ServerState :=
  let aEntities := getEntitySetData st sEntitySetName
  let aUpdatedEntities := aEntities.map (fun oEntity =>
    if jsEq (oEntity "Id") sId then Entity.extend oEntity oUpdatedProperties else oEntity)
  setEntitySetData st sEntitySetName aUpdatedEntities

def _updateProduct (st : ServerState) (sId : Option Value) (oUpdatedProperties : Entity) :
    ServerState :=
  _updateEntity st "Products" sId oUpdatedProperties

def _updateProductDraft (st : ServerState) (sDraftId : Option Value)
    (oUpdatedProperties : Entity) : ServerState :=
  _updateEntity st "ProductDrafts" sDraftId oUpdatedProperties

/-- deleteProductDraft: keeps exactly the draft rows whose Id is not strictly equal to
the given draft id. -/
def _deleteProductDraft (st : ServerState) (sDraftId : Option Value) : ServerState :=
  let aProductDrafts := getEntitySetData st "ProductDrafts"
  setEntitySetData st "ProductDrafts"
    (aProductDrafts.filter (fun oDraft => !(jsEq (oDraft "Id") sDraftId)))

/-- extendMetadata: attaches the synthetic addressing metadata triple. The URI strings
are modelled as the same concatenations as the source up to the quote characters that
surround the key inside the parentheses, which are elided. -/
def _extendMetadata (st : ServerState) (oEntity : Entity)
    (sEntityTypeName sEntitySetName : String) : Entity :=
  oEntity.set "__metadata" (.vMeta
    (st.rootUri ++ sEntitySetName ++ "(" ++ jsToString (oEntity "Id") ++ ")")
    ("EPM_REF_APPS_PROD_MAN_SRV." ++ sEntityTypeName)
    (st.rootUri ++ sEntitySetName ++ "(" ++ jsToString (oEntity "Id") ++ ")"))

/-- createProduct: pushes the product, extended with addressing metadata, onto the
Products collection. -/
def _createProduct (st : ServerState) (oProduct : Entity) : ServerState :=
  let aProducts := getEntitySetData st "Products"
  let oProduct := _extendMetadata st oProduct "Product" "Products"
  setEntitySetData st "Products" (aProducts ++ [oProduct])

/-- createProductDraft: attaches the deferred Images link and addressing metadata, then
pushes the draft onto the ProductDrafts collection. -/
def _createProductDraft (st : ServerState) (oDraft : Entity) : ServerState :=
  let aProductDrafts := getEntitySetData st "ProductDrafts"
  let oDraft := oDraft.set "Images"
    (.vDeferred (st.rootUri ++ "ProductDrafts(" ++ jsToString (oDraft "Id") ++ ")/Images"))
  let oDraft := _extendMetadata st oDraft "ProductDraft" "ProductDrafts"
  setEntitySetData st "ProductDrafts" (aProductDrafts ++ [oDraft])

/-- The default values merged into a draft created through the generic creation path. -/
def _oNewDraftDefaultValues : Entity := Entity.ofList [
  ("CurrencyCode", .vStr "EUR"),
  ("DimensionUnit", .vStr "MTR"),
  ("IsDirty", .vBool false),
  ("IsNewProduct", .vBool true),
  ("QuantityUnit", .vStr "EA"),
  ("MeasureUnit", .vStr "each"),
  ("WeightUnit", .vStr "KGM")]

/-- onAfterDraftCreated: the attachAfter hook on POST ProductDrafts. When the just
created draft has no truthy ProductId the default values are jQuery.extended into it;
otherwise the draft is left untouched. -/
def onAfterDraftCreated (oEntity : Entity) : Entity :=
  if truthy (oEntity "ProductId") then oEntity
  else Entity.extend oEntity _oNewDraftDefaultValues

/-- The response handler of the mockAddProduct rule (pre attachAfter mock server
interface). The just created draft is parsed from the response body; when it has no
truthy ProductId the default values are merged into its stored row through
updateProductDraft. -/
def _mockAddProduct (st : ServerState) (oDraft : Entity) : ServerState :=
  if truthy (oDraft "ProductId") then st
  else _updateProductDraft st (oDraft "Id") _oNewDraftDefaultValues

/-- The defaulting of the IsNewProduct flag at the top of buildProductFromDraft: the
flag of the draft, with undefined (a draft created with the add button) replaced by
true. -/
def isNewFlag (oDraft : Entity) : Option Value :=
  match oDraft "IsNewProduct" with
  | none => some (.vBool true)
  | v => v

/-- buildProductFromDraft: builds the product object from a draft (the two are the same
mutated object in the source), deletes the draft row from the store midway, re derives
the category names, converts the unit fields from internal code to display text and,
for drafts representing a new product, zero initialises the aggregate fields. Returns
the store after the draft deletion together with the built product. -/
def _buildProductFromDraft (st : ServerState) (oDraft : Entity) : ServerState × Entity :=
  let bIsNewProduct : Option Value := isNewFlag oDraft
  let oProduct := oDraft
  let oProduct := oProduct.del "__metadata"
  let oProduct := oProduct.del "SubCategoryName"
  let oProduct := oProduct.del "MainCategoryName"
  let oProduct := oProduct.del "Images"
  let oProduct := oProduct.del "IsNewProduct"
  let oProduct := oProduct.del "ExpiresAt"
  let oProduct := oProduct.del "ProductId"
  let oProduct := oProduct.del "IsDirty"
  let st := _deleteProductDraft st (oProduct "Id")
  let oProduct :=
    if truthy (oProduct "SubCategoryName") then oProduct
    else oProduct.setOpt "SubCategoryName"
      (fieldOf (_getSubCategory st (oProduct "SubCategoryId")) "Name")
  let oProduct :=
    if truthy (oProduct "MainCategoryName") then oProduct
    else oProduct.setOpt "MainCategoryName"
      (fieldOf (_getMainCategory st (oProduct "MainCategoryId")) "Name")
  let oProduct := oProduct.setOpt "WeightUnit" (_getWeightText st (oProduct "WeightUnit"))
  let oProduct := oProduct.setOpt "DimensionUnit"
    (_getDimensionText st (oProduct "DimensionUnit"))
  let oProduct :=
    if truthy bIsNewProduct then
      let oProduct := oProduct.set "RatingCount" (.vNum 0)
      let oProduct := oProduct.set "AverageRating" (.vNum 0)
      let oProduct := oProduct.set "StockQuantity" (.vNum 0)
      if truthy (oProduct "ImageUrl") then oProduct
      else oProduct.set "ImageUrl" (.vStr "")
    else oProduct
  (st, oProduct)

/-- The response handler of the mockActivateProduct rule. Loads the draft named in the
URL, builds the product from it (which also deletes the draft row), then creates the
product or updates the product row with the matching id depending on IsNewProduct
(undefined counts as new), and responds with the freshly read product. A result of none
models the path where the draft lookup misses: there the source raises a TypeError on
the first strict mode assignment to a field of the sentinel and produces no response. -/
def _mockActivateProduct (st : ServerState) (sDraftIdInUrl : String) :
    Option (ServerState × Option Entity) :=
  match _getProductDraft st (some (.vStr sDraftIdInUrl)) with
  | none => none
  | some oProdDraft =>
    let bIsNewProduct := oProdDraft "IsNewProduct"
    let stepBuild := _buildProductFromDraft st oProdDraft
    let oProduct := stepBuild.2
    let st2 :=
      if truthy bIsNewProduct || bIsNewProduct.isNone then
        _createProduct stepBuild.1 oProduct
      else
        _updateProduct stepBuild.1 (oProduct "Id") oProduct
    some (st2, _getProduct st2 (oProduct "Id"))

/-- createDraft: shared body of the EditProduct and CopyProduct simulations. Copies the
located product, strips the product only fields, stamps the creator, sets the dirty and
new flags, assigns Id and ProductId (a freshly generated id for a copy, the source
product id for an edit), converts the unit fields from display text back to internal
code, stores the draft and responds with the freshly read draft row. When the product
lookup misses, jQuery.extend skips the non object source and the handler still builds
and stores a draft out of the sentinel, reading undefined from its fields. -/
def _createDraft (st : ServerState) (sProductId : String) (bNewProduct : Bool) :
    ServerState × Option Entity :=
  let oProduct := _getProduct st (some (.vStr sProductId))
  let oDraft := extendFromLookup oProduct
  let oDraft := oDraft.del "HasReviewOfCurrentUser"
  let oDraft := oDraft.del "RatingCount"
  let oDraft := oDraft.del "IsFavoriteOfCurrentUser"
  let oDraft := oDraft.del "StockQuantity"
  let oDraft := oDraft.del "AverageRating"
  let oDraft := oDraft.del "__metadata"
  let oDraft := oDraft.set "CreatedBy" (.vStr "Test User")
  let oDraft := oDraft.set "IsNewProduct" (.vBool bNewProduct)
  let oDraft := oDraft.set "IsDirty" (.vBool false)
  let stepId :=
    if bNewProduct then
      let stepNew := _getNewId st
      let d := oDraft.set "Id" (.vStr ("EPM-" ++ toString stepNew.2))
      (stepNew.1, d.setOpt "ProductId" (d "Id"))
    else
      (st, (oDraft.set "Id" (.vStr sProductId)).set "ProductId" (.vStr sProductId))
  let st := stepId.1
  let oDraft := stepId.2
  let oDraft := oDraft.setOpt "WeightUnit" (_getWeightUnit st (fieldOf oProduct "WeightUnit"))
  let oDraft := oDraft.setOpt "DimensionUnit"
    (_getDimensionUnit st (fieldOf oProduct "DimensionUnit"))
  let st := _createProductDraft st oDraft
  (st, _getProductDraft st (oDraft "Id"))

/-- The response handler of the mockEditProduct rule. -/
def _mockEditProduct (st : ServerState) (sProductId : String) : ServerState × Option Entity :=
  _createDraft st sProductId false

/-- The response handler of the mockCopyProduct rule. -/
def _mockCopyProduct (st : ServerState) (sProductId : String) : ServerState × Option Entity :=
  _createDraft st sProductId true

/-- The edit then activate round trip on one product id: the EditProduct simulation
followed by the ActivateProduct simulation on the draft it created (for an edit the
draft id equals the product id). -/
def editThenActivate (st : ServerState) (sProductId : String) :
    Option (ServerState × Option Entity) :=
  _mockActivateProduct (_mockEditProduct st sProductId).1 sProductId

/-- Uniqueness of draft Id values under JS strict equality, the invariant claimed for
the ProductDrafts collection. -/
def noDupIds : List Entity → Bool
  | [] => true
  | e :: rest => rest.all (fun r => !(jsEq (r "Id") (e "Id"))) && noDupIds rest

/-- Tests that a field value is a JS string. -/
def isStrField : Option Value → Bool
  | some (.vStr _) => true
  | _ => false

/-- Modelled from the spec: the WeightUnits and DimensionUnits reference tables are
data files of this repository that are not part of the sources at hand. The spec
describes them as static reference entities mapping an internal Unit code to a display
Shorttext, bidirectionally looked up, which this well formedness predicate captures:
every row carries string valued Unit and Shorttext fields and no two rows share a Unit
or a Shorttext. -/
def unitTableWF : List Entity → Bool
  | [] => true
  | e :: rest =>
    isStrField (e "Unit") && isStrField (e "Shorttext") &&
    rest.all (fun r => !(jsEq (r "Unit") (e "Unit")) && !(jsEq (r "Shorttext") (e "Shorttext"))) &&
    unitTableWF rest

/-- The id assigned to the draft stored by createDraft: a freshly generated id for a
copy, the source product id for an edit. -/
def storedDraftId (st : ServerState) (sProductId : String) (bNewProduct : Bool) : String :=
  if bNewProduct then "EPM-" ++ toString (st.lastId + 1) else sProductId

/-- Pointwise description of the draft row stored by createDraft, proved equal to the
row the handler pushes (lemma createDraft_spec below). -/
def storedDraft (st : ServerState) (sProductId : String) (bNewProduct : Bool) : Entity :=
  fun k =>
    let oProduct := _getProduct st (some (.vStr sProductId))
    let i := storedDraftId st sProductId bNewProduct
    if k = "__metadata" then some (.vMeta
      (st.rootUri ++ "ProductDrafts" ++ "(" ++ i ++ ")")
      ("EPM_REF_APPS_PROD_MAN_SRV." ++ "ProductDraft")
      (st.rootUri ++ "ProductDrafts" ++ "(" ++ i ++ ")"))
    else if k = "Images" then some (.vDeferred (st.rootUri ++ "ProductDrafts(" ++ i ++ ")/Images"))
    else if k = "DimensionUnit" then _getDimensionUnit st (fieldOf oProduct "DimensionUnit")
    else if k = "WeightUnit" then _getWeightUnit st (fieldOf oProduct "WeightUnit")
    else if k = "ProductId" then some (.vStr i)
    else if k = "Id" then some (.vStr i)
    else if k = "IsDirty" then some (.vBool false)
    else if k = "IsNewProduct" then some (.vBool bNewProduct)
    else if k = "CreatedBy" then some (.vStr "Test User")
    else if k = "HasReviewOfCurrentUser" then none
    else if k = "RatingCount" then none
    else if k = "IsFavoriteOfCurrentUser" then none
    else if k = "StockQuantity" then none
    else if k = "AverageRating" then none
    else fieldOf oProduct k

/-- The draft of the scenario in the spec: category name fields absent, category id
fields pointing at the reference rows, unit code fields carrying internal codes. -/
def ScenarioDraft : Entity := Entity.ofList [
  ("Id", .vStr "EPM-1"), ("ProductId", .vStr "EPM-1"), ("IsNewProduct", .vBool true),
  ("SubCategoryId", .vStr "S1"), ("MainCategoryId", .vStr "M1"),
  ("WeightUnit", .vStr "KG"), ("DimensionUnit", .vStr "MTR")]

/-- The scenario draft with IsNewProduct set to false, for the only when new halves. -/
def ScenarioDraftEditFlag : Entity := Entity.ofList [
  ("Id", .vStr "EPM-1"), ("ProductId", .vStr "EPM-1"), ("IsNewProduct", .vBool false),
  ("SubCategoryId", .vStr "S1"), ("MainCategoryId", .vStr "M1"),
  ("WeightUnit", .vStr "KG"), ("DimensionUnit", .vStr "MTR")]

/-- The scenario draft with category name fields present and disagreeing with the
category tables, to probe whether a present name survives the build. -/
def ScenarioDraftNamed : Entity := Entity.ofList [
  ("Id", .vStr "EPM-1"), ("ProductId", .vStr "EPM-1"), ("IsNewProduct", .vBool true),
  ("SubCategoryId", .vStr "S1"), ("SubCategoryName", .vStr "Other"),
  ("MainCategoryId", .vStr "M1"), ("MainCategoryName", .vStr "Elsewhere"),
  ("WeightUnit", .vStr "KG"), ("DimensionUnit", .vStr "MTR")]

/-- The store of the scenario in the spec: one sub category Snacks, one main category
Food, the weight unit row KG kg and the dimension unit row MTR m. -/
def ScenarioState : ServerState := {
  products := [],
  productDrafts := [ScenarioDraft],
  mainCategories := [Entity.ofList [("Id", .vStr "M1"), ("Name", .vStr "Food")]],
  subCategories := [Entity.ofList [("Id", .vStr "S1"), ("Name", .vStr "Snacks")]],
  weightUnits := [Entity.ofList [("Unit", .vStr "KG"), ("Shorttext", .vStr "kg")]],
  dimensionUnits := [Entity.ofList [("Unit", .vStr "MTR"), ("Shorttext", .vStr "m")]],
  lastId := 0,
  rootUri := "/" }

/-- A published product used to exercise the edit then activate round trip. Its
denormalized category names agree with the category tables and its unit fields carry
the display texts of the unit tables, as the published data of the app does. -/
def RoundTripProduct : Entity := Entity.ofList [
  ("Id", .vStr "HT-1000"), ("Name", .vStr "Notebook"),
  ("SubCategoryId", .vStr "S1"), ("SubCategoryName", .vStr "Snacks"),
  ("MainCategoryId", .vStr "M1"), ("MainCategoryName", .vStr "Food"),
  ("WeightUnit", .vStr "kg"), ("DimensionUnit", .vStr "m"),
  ("RatingCount", .vNum 5), ("AverageRating", .vNum 4), ("StockQuantity", .vNum 10),
  ("HasReviewOfCurrentUser", .vBool true), ("IsFavoriteOfCurrentUser", .vBool false),
  ("ImageUrl", .vStr "img"), ("Price", .vNum 950), ("CurrencyCode", .vStr "EUR")]

/-- The store for the round trip witness: one published product, no drafts. -/
def RoundTripState : ServerState := {
  products := [RoundTripProduct],
  productDrafts := [],
  mainCategories := [Entity.ofList [("Id", .vStr "M1"), ("Name", .vStr "Food")]],
  subCategories := [Entity.ofList [("Id", .vStr "S1"), ("Name", .vStr "Snacks")]],
  weightUnits := [Entity.ofList [("Unit", .vStr "KG"), ("Shorttext", .vStr "kg")]],
  dimensionUnits := [Entity.ofList [("Unit", .vStr "MTR"), ("Shorttext", .vStr "m")]],
  lastId := 0,
  rootUri := "/" }

/-- A store in which the in process counter is fresh while a product already carries
the id EPM-1: the next generated draft id collides with it. -/
def CopyClashState : ServerState := {
  products := [Entity.ofList [("Id", .vStr "EPM-1")]],
  productDrafts := [],
  mainCategories := [], subCategories := [], weightUnits := [], dimensionUnits := [],
  lastId := 0,
  rootUri := "/" }

/-- A store holding a product P1 and an unactivated draft that already carries the id
P1, as after an edit of P1 that was never saved. -/
def DoubleEditState : ServerState := {
  products := [Entity.ofList [("Id", .vStr "P1")]],
  productDrafts := [Entity.ofList [("Id", .vStr "P1")]],
  mainCategories := [], subCategories := [], weightUnits := [], dimensionUnits := [],
  lastId := 0,
  rootUri := "/" }

/-- A store with all collections empty and a fresh counter. -/
def EmptyStoreState : ServerState := {
  products := [], productDrafts := [],
  mainCategories := [], subCategories := [], weightUnits := [], dimensionUnits := [],
  lastId := 0,
  rootUri := "/" }

/-- A draft as created through the generic creation path by the add button: no
ProductId field. -/
def FreshAddDraft : Entity := Entity.ofList [("Id", .vStr "D1")]

/-- A draft row of the edit flow: its ProductId carries the edited product id. -/
def EditedDraftRow : Entity := Entity.ofList [
  ("Id", .vStr "HT-1000"), ("ProductId", .vStr "HT-1000")]

theorem jsEq_vStr_iff (x : Option Value) (s : String) :
    jsEq x (some (.vStr s)) = true ↔ x = some (.vStr s) := by
  cases x with
  | none => simp [jsEq]
  | some v => cases v <;> simp [jsEq]

theorem jsEq_symm (a b : Option Value) : jsEq a b = jsEq b a := by
  cases a with
  | none => cases b with
    | none => rfl
    | some w => cases w <;> rfl
  | some v => cases b with
    | none => cases v <;> rfl
    | some w => cases v <;> cases w <;> simp [jsEq, eq_comm]

theorem find?_all_false {α : Type} (p : α → Bool) (l : List α)
    (h : ∀ x ∈ l, p x = false) : l.find? p = none :=
  List.find?_eq_none.mpr (by intro x hx; simp [h x hx])

theorem find?_append_left {α : Type} (p : α → Bool) (l1 l2 : List α)
    (h : ∀ x ∈ l1, p x = false) : (l1 ++ l2).find? p = l2.find? p := by
  induction l1 with
  | nil => rfl
  | cons a as ih =>
    have ha := h a (by simp)
    rw [List.cons_append, List.find?_cons_of_neg _ (by simp [ha])]
    exact ih (fun x hx => h x (by simp [hx]))

theorem find?_first {α : Type} (p : α → Bool) (pre post : List α) (r : α)
    (hpre : ∀ x ∈ pre, p x = false) (hr : p r = true) :
    (pre ++ r :: post).find? p = some r := by
  rw [find?_append_left p pre _ hpre, List.find?_cons_of_pos _ hr]

@[simp] theorem truthy_none : truthy none = false := rfl

@[simp] theorem truthy_vStr (s : String) : truthy (some (.vStr s)) = !(s == "") := rfl

@[simp] theorem truthy_vBool (b : Bool) : truthy (some (.vBool b)) = b := rfl

@[simp] theorem truthy_vNum (n : Int) : truthy (some (.vNum n)) = !(n == 0) := rfl

@[simp] theorem truthy_vMeta (a b c : String) : truthy (some (.vMeta a b c)) = true := rfl

@[simp] theorem truthy_vDeferred (a : String) : truthy (some (.vDeferred a)) = true := rfl

@[simp] theorem deleteDraft_products (st : ServerState) (i : Option Value) :
    (_deleteProductDraft st i).products = st.products := rfl

@[simp] theorem deleteDraft_drafts (st : ServerState) (i : Option Value) :
    (_deleteProductDraft st i).productDrafts =
      st.productDrafts.filter (fun q => !(jsEq (q "Id") i)) := rfl

@[simp] theorem deleteDraft_main (st : ServerState) (i : Option Value) :
    (_deleteProductDraft st i).mainCategories = st.mainCategories := rfl

@[simp] theorem deleteDraft_sub (st : ServerState) (i : Option Value) :
    (_deleteProductDraft st i).subCategories = st.subCategories := rfl

@[simp] theorem deleteDraft_weight (st : ServerState) (i : Option Value) :
    (_deleteProductDraft st i).weightUnits = st.weightUnits := rfl

@[simp] theorem deleteDraft_dimension (st : ServerState) (i : Option Value) :
    (_deleteProductDraft st i).dimensionUnits = st.dimensionUnits := rfl

@[simp] theorem deleteDraft_rootUri (st : ServerState) (i : Option Value) :
    (_deleteProductDraft st i).rootUri = st.rootUri := rfl

@[simp] theorem deleteDraft_lastId (st : ServerState) (i : Option Value) :
    (_deleteProductDraft st i).lastId = st.lastId := rfl

@[simp] theorem createProduct_products (st : ServerState) (p : Entity) :
    (_createProduct st p).products = st.products ++ [_extendMetadata st p "Product" "Products"] :=
  rfl

@[simp] theorem createProduct_drafts (st : ServerState) (p : Entity) :
    (_createProduct st p).productDrafts = st.productDrafts := rfl

@[simp] theorem updateProduct_products (st : ServerState) (i : Option Value) (p : Entity) :
    (_updateProduct st i p).products =
      st.products.map (fun q => if jsEq (q "Id") i then Entity.extend q p else q) := rfl

@[simp] theorem updateProduct_drafts (st : ServerState) (i : Option Value) (p : Entity) :
    (_updateProduct st i p).productDrafts = st.productDrafts := rfl

theorem extendFrom_apply (r : Option Entity) (k : String) :
    extendFromLookup r k = fieldOf r k := by
  cases r with
  | none => rfl
  | some p =>
    show (Entity.extend Entity.empty p) k = p k
    unfold Entity.extend Entity.empty
    cases p k <;> rfl

theorem build_fst (st : ServerState) (d : Entity) :
    (_buildProductFromDraft st d).1 =
      { st with productDrafts :=
          st.productDrafts.filter (fun q => !(jsEq (q "Id") (d "Id"))) } := by
  simp [_buildProductFromDraft, _deleteProductDraft, setEntitySetData, getEntitySetData,
    Entity.del]

theorem build_snd_apply (st : ServerState) (d : Entity) (k : String) :
    (_buildProductFromDraft st d).2 k =
      (if k = "ImageUrl" then
        (if truthy (isNewFlag d) then
          (if truthy (d "ImageUrl") then d "ImageUrl" else some (.vStr ""))
         else d "ImageUrl")
      else if k = "StockQuantity" then
        (if truthy (isNewFlag d) then some (.vNum 0) else d "StockQuantity")
      else if k = "AverageRating" then
        (if truthy (isNewFlag d) then some (.vNum 0) else d "AverageRating")
      else if k = "RatingCount" then
        (if truthy (isNewFlag d) then some (.vNum 0) else d "RatingCount")
      else if k = "DimensionUnit" then _getDimensionText st (d "DimensionUnit")
      else if k = "WeightUnit" then _getWeightText st (d "WeightUnit")
      else if k = "MainCategoryName" then fieldOf (_getMainCategory st (d "MainCategoryId")) "Name"
      else if k = "SubCategoryName" then fieldOf (_getSubCategory st (d "SubCategoryId")) "Name"
      else if k = "__metadata" then none
      else if k = "Images" then none
      else if k = "IsNewProduct" then none
      else if k = "ExpiresAt" then none
      else if k = "ProductId" then none
      else if k = "IsDirty" then none
      else d k) := by
  by_cases h1 : k = "ImageUrl"
  · subst h1
    by_cases hNew : truthy (isNewFlag d) = true <;>
      by_cases hImg : truthy (d "ImageUrl") = true <;>
      simp [_buildProductFromDraft, Entity.del, Entity.set, Entity.setOpt, _getSubCategory,
        _getMainCategory, _getWeightText, _getDimensionText, _getFirstFoundEntity,
        getEntitySetData, setEntitySetData, _deleteProductDraft, effectiveKey, fieldOf,
        hNew, hImg]
  by_cases h2 : k = "StockQuantity"
  · subst h2
    by_cases hNew : truthy (isNewFlag d) = true <;>
      by_cases hImg : truthy (d "ImageUrl") = true <;>
      simp [_buildProductFromDraft, Entity.del, Entity.set, Entity.setOpt, _getSubCategory,
        _getMainCategory, _getWeightText, _getDimensionText, _getFirstFoundEntity,
        getEntitySetData, setEntitySetData, _deleteProductDraft, effectiveKey, fieldOf,
        hNew, hImg]
  by_cases h3 : k = "AverageRating"
  · subst h3
    by_cases hNew : truthy (isNewFlag d) = true <;>
      by_cases hImg : truthy (d "ImageUrl") = true <;>
      simp [_buildProductFromDraft, Entity.del, Entity.set, Entity.setOpt, _getSubCategory,
        _getMainCategory, _getWeightText, _getDimensionText, _getFirstFoundEntity,
        getEntitySetData, setEntitySetData, _deleteProductDraft, effectiveKey, fieldOf,
        hNew, hImg]
  by_cases h4 : k = "RatingCount"
  · subst h4
    by_cases hNew : truthy (isNewFlag d) = true <;>
      by_cases hImg : truthy (d "ImageUrl") = true <;>
      simp [_buildProductFromDraft, Entity.del, Entity.set, Entity.setOpt, _getSubCategory,
        _getMainCategory, _getWeightText, _getDimensionText, _getFirstFoundEntity,
        getEntitySetData, setEntitySetData, _deleteProductDraft, effectiveKey, fieldOf,
        hNew, hImg]
  by_cases h5 : k = "DimensionUnit"
  · subst h5
    by_cases hNew : truthy (isNewFlag d) = true <;>
      by_cases hImg : truthy (d "ImageUrl") = true <;>
      simp [_buildProductFromDraft, Entity.del, Entity.set, Entity.setOpt, _getSubCategory,
        _getMainCategory, _getWeightText, _getDimensionText, _getFirstFoundEntity,
        getEntitySetData, setEntitySetData, _deleteProductDraft, effectiveKey, fieldOf,
        hNew, hImg]
  by_cases h6 : k = "WeightUnit"
  · subst h6
    by_cases hNew : truthy (isNewFlag d) = true <;>
      by_cases hImg : truthy (d "ImageUrl") = true <;>
      simp [_buildProductFromDraft, Entity.del, Entity.set, Entity.setOpt, _getSubCategory,
        _getMainCategory, _getWeightText, _getDimensionText, _getFirstFoundEntity,
        getEntitySetData, setEntitySetData, _deleteProductDraft, effectiveKey, fieldOf,
        hNew, hImg]
  by_cases h7 : k = "MainCategoryName"
  · subst h7
    by_cases hNew : truthy (isNewFlag d) = true <;>
      by_cases hImg : truthy (d "ImageUrl") = true <;>
      simp [_buildProductFromDraft, Entity.del, Entity.set, Entity.setOpt, _getSubCategory,
        _getMainCategory, _getWeightText, _getDimensionText, _getFirstFoundEntity,
        getEntitySetData, setEntitySetData, _deleteProductDraft, effectiveKey, fieldOf,
        hNew, hImg]
  by_cases h8 : k = "SubCategoryName"
  · subst h8
    by_cases hNew : truthy (isNewFlag d) = true <;>
      by_cases hImg : truthy (d "ImageUrl") = true <;>
      simp [_buildProductFromDraft, Entity.del, Entity.set, Entity.setOpt, _getSubCategory,
        _getMainCategory, _getWeightText, _getDimensionText, _getFirstFoundEntity,
        getEntitySetData, setEntitySetData, _deleteProductDraft, effectiveKey, fieldOf,
        hNew, hImg]
  by_cases h9 : k = "__metadata"
  · subst h9
    by_cases hNew : truthy (isNewFlag d) = true <;>
      by_cases hImg : truthy (d "ImageUrl") = true <;>
      simp [_buildProductFromDraft, Entity.del, Entity.set, Entity.setOpt, _getSubCategory,
        _getMainCategory, _getWeightText, _getDimensionText, _getFirstFoundEntity,
        getEntitySetData, setEntitySetData, _deleteProductDraft, effectiveKey, fieldOf,
        hNew, hImg]
  by_cases h10 : k = "Images"
  · subst h10
    by_cases hNew : truthy (isNewFlag d) = true <;>
      by_cases hImg : truthy (d "ImageUrl") = true <;>
      simp [_buildProductFromDraft, Entity.del, Entity.set, Entity.setOpt, _getSubCategory,
        _getMainCategory, _getWeightText, _getDimensionText, _getFirstFoundEntity,
        getEntitySetData, setEntitySetData, _deleteProductDraft, effectiveKey, fieldOf,
        hNew, hImg]
  by_cases h11 : k = "IsNewProduct"
  · subst h11
    by_cases hNew : truthy (isNewFlag d) = true <;>
      by_cases hImg : truthy (d "ImageUrl") = true <;>
      simp [_buildProductFromDraft, Entity.del, Entity.set, Entity.setOpt, _getSubCategory,
        _getMainCategory, _getWeightText, _getDimensionText, _getFirstFoundEntity,
        getEntitySetData, setEntitySetData, _deleteProductDraft, effectiveKey, fieldOf,
        hNew, hImg]
  by_cases h12 : k = "ExpiresAt"
  · subst h12
    by_cases hNew : truthy (isNewFlag d) = true <;>
      by_cases hImg : truthy (d "ImageUrl") = true <;>
      simp [_buildProductFromDraft, Entity.del, Entity.set, Entity.setOpt, _getSubCategory,
        _getMainCategory, _getWeightText, _getDimensionText, _getFirstFoundEntity,
        getEntitySetData, setEntitySetData, _deleteProductDraft, effectiveKey, fieldOf,
        hNew, hImg]
  by_cases h13 : k = "ProductId"
  · subst h13
    by_cases hNew : truthy (isNewFlag d) = true <;>
      by_cases hImg : truthy (d "ImageUrl") = true <;>
      simp [_buildProductFromDraft, Entity.del, Entity.set, Entity.setOpt, _getSubCategory,
        _getMainCategory, _getWeightText, _getDimensionText, _getFirstFoundEntity,
        getEntitySetData, setEntitySetData, _deleteProductDraft, effectiveKey, fieldOf,
        hNew, hImg]
  by_cases h14 : k = "IsDirty"
  · subst h14
    by_cases hNew : truthy (isNewFlag d) = true <;>
      by_cases hImg : truthy (d "ImageUrl") = true <;>
      simp [_buildProductFromDraft, Entity.del, Entity.set, Entity.setOpt, _getSubCategory,
        _getMainCategory, _getWeightText, _getDimensionText, _getFirstFoundEntity,
        getEntitySetData, setEntitySetData, _deleteProductDraft, effectiveKey, fieldOf,
        hNew, hImg]
  by_cases hNew : truthy (isNewFlag d) = true <;>
    by_cases hImg : truthy (d "ImageUrl") = true <;>
    simp [_buildProductFromDraft, Entity.del, Entity.set, Entity.setOpt, _getSubCategory,
      _getMainCategory, _getWeightText, _getDimensionText, _getFirstFoundEntity,
      getEntitySetData, setEntitySetData, _deleteProductDraft, effectiveKey, fieldOf,
      hNew, hImg, h1, h2, h3, h4, h5, h6, h7, h8, h9, h10, h11, h12, h13, h14]

/-- C1: for every draft found in the ProductDrafts collection under the activated id,
the ActivateProduct handler with IsNewProduct equal to true or undefined appends
exactly one new row built from the draft to the Products collection and removes the
draft row from ProductDrafts; with IsNewProduct equal to false it replaces the fields
of every Products row whose Id matches the built product id in place (the Products
collection length is unchanged) and removes the draft row. -/
theorem C1_activation_append_or_update (st : ServerState) (sid : String) (d : Entity)
    (h : _getProductDraft st (some (.vStr sid)) = some d) :
    ∃ st2 resp, _mockActivateProduct st sid = some (st2, resp) ∧
      st2.productDrafts =
        st.productDrafts.filter (fun q => !(jsEq (q "Id") (some (.vStr sid)))) ∧
      ((d "IsNewProduct" = some (.vBool true) ∨ d "IsNewProduct" = none) →
        st2.products.length = st.products.length + 1 ∧
        ∃ row, st2.products = st.products ++ [row] ∧ row "Id" = some (.vStr sid)) ∧
      (d "IsNewProduct" = some (.vBool false) →
        st2.products.length = st.products.length ∧
        st2.products = st.products.map (fun p =>
          if jsEq (p "Id") (some (.vStr sid)) then
            Entity.extend p (_buildProductFromDraft st d).2
          else p)) := by
  have hfind : (getEntitySetData st "ProductDrafts").find?
      (fun e => jsEq (e (effectiveKey none)) (some (.vStr sid))) = some d := h
  have hpred := List.find?_some hfind
  have hid : d "Id" = some (.vStr sid) := (jsEq_vStr_iff _ _).mp hpred
  have hprodid : (_buildProductFromDraft st d).2 "Id" = some (.vStr sid) := by
    simp [build_snd_apply, hid]
  simp only [_mockActivateProduct, h]
  refine ⟨_, _, rfl, ?_, ?_, ?_⟩
  · split <;> simp [build_fst, hid]
  · intro hnew
    have hcond : (truthy (d "IsNewProduct") || (d "IsNewProduct").isNone) = true := by
      rcases hnew with hh | hh <;> simp [hh]
    simp only [hcond, if_true]
    constructor
    · simp [build_fst]
    · refine ⟨_extendMetadata (_buildProductFromDraft st d).1
        (_buildProductFromDraft st d).2 "Product" "Products", ?_, ?_⟩
      · simp [build_fst]
      · simp [_extendMetadata, Entity.set, hprodid]
  · intro hfalse
    have hcond : (truthy (d "IsNewProduct") || (d "IsNewProduct").isNone) = false := by
      simp [hfalse]
    simp only [hcond, Bool.false_eq_true, if_false]
    constructor
    · simp [build_fst]
    · simp only [updateProduct_products, build_fst, hprodid]

/-- C1 witness: the activation of the scenario draft, a new product draft, on the
scenario store. -/
theorem C1_witness :
    ∃ st2 resp, _mockActivateProduct ScenarioState "EPM-1" = some (st2, resp) ∧
      st2.productDrafts =
        ScenarioState.productDrafts.filter
          (fun q => !(jsEq (q "Id") (some (.vStr "EPM-1")))) ∧
      ((ScenarioDraft "IsNewProduct" = some (.vBool true) ∨
          ScenarioDraft "IsNewProduct" = none) →
        st2.products.length = ScenarioState.products.length + 1 ∧
        ∃ row, st2.products = ScenarioState.products ++ [row] ∧
          row "Id" = some (.vStr "EPM-1")) ∧
      (ScenarioDraft "IsNewProduct" = some (.vBool false) →
        st2.products.length = ScenarioState.products.length ∧
        st2.products = ScenarioState.products.map (fun p =>
          if jsEq (p "Id") (some (.vStr "EPM-1")) then
            Entity.extend p (_buildProductFromDraft ScenarioState ScenarioDraft).2
          else p)) :=
  C1_activation_append_or_update ScenarioState "EPM-1" ScenarioDraft (by rfl)

/-- C7 amended: activating the scenario draft (Id EPM-1, ProductId EPM-1, IsNewProduct
true, SubCategoryId S1, MainCategoryId M1, category name fields absent, unit code fields
carried along as the spec scenario ellipsis allows) against the reference collections
SubCategories Snacks and MainCategories Food produces a product with SubCategoryName
Snacks, MainCategoryName Food, RatingCount 0, AverageRating 0 and StockQuantity 0;
building the same draft with IsNewProduct false performs no zero initialisation, so the
aggregate fields stay absent; and the category names of the built product are re
derived from the id fields unconditionally, for every store and every draft, whether or
not the draft carries name fields (the build deletes them before its absence check). -/
theorem C7_scenario_activation :
    ((_mockActivateProduct ScenarioState "EPM-1").map (fun r =>
        (fieldOf r.2 "SubCategoryName", fieldOf r.2 "MainCategoryName",
         fieldOf r.2 "RatingCount", fieldOf r.2 "AverageRating",
         fieldOf r.2 "StockQuantity"))) =
      some (some (.vStr "Snacks"), some (.vStr "Food"),
        some (.vNum 0), some (.vNum 0), some (.vNum 0)) ∧
    (_buildProductFromDraft ScenarioState ScenarioDraftEditFlag).2 "RatingCount" = none ∧
    (_buildProductFromDraft ScenarioState ScenarioDraftEditFlag).2 "AverageRating" = none ∧
    (_buildProductFromDraft ScenarioState ScenarioDraftEditFlag).2 "StockQuantity" = none ∧
    (∀ (st : ServerState) (d : Entity),
      (_buildProductFromDraft st d).2 "SubCategoryName" =
        fieldOf (_getSubCategory st (d "SubCategoryId")) "Name" ∧
      (_buildProductFromDraft st d).2 "MainCategoryName" =
        fieldOf (_getMainCategory st (d "MainCategoryId")) "Name") := by
  refine ⟨rfl, rfl, rfl, rfl, ?_⟩
  intro st d
  constructor <;>
    · rw [build_snd_apply]
      simp

/-- C7 counterexample: the claim that category names are re derived from the id fields
only when absent on the draft fails on the code. This draft carries SubCategoryName
Other and MainCategoryName Elsewhere, yet the built product carries the names re
derived from the category tables, Snacks and Food, not the names present on the
draft. -/
theorem C7_counterexample :
    ScenarioDraftNamed "SubCategoryName" = some (.vStr "Other") ∧
    (_buildProductFromDraft ScenarioState ScenarioDraftNamed).2 "SubCategoryName" =
      some (.vStr "Snacks") ∧
    ScenarioDraftNamed "MainCategoryName" = some (.vStr "Elsewhere") ∧
    (_buildProductFromDraft ScenarioState ScenarioDraftNamed).2 "MainCategoryName" =
      some (.vStr "Food") :=
  ⟨rfl, rfl, rfl, rfl⟩

theorem createDraft_products (st : ServerState) (sid : String) (b : Bool) :
    ((_createDraft st sid b).1).products = st.products := by
  cases b <;> rfl

theorem createDraft_lastId (st : ServerState) (sid : String) (b : Bool) :
    ((_createDraft st sid b).1).lastId = (if b then st.lastId + 1 else st.lastId) := by
  cases b <;> rfl

theorem createDraft_main (st : ServerState) (sid : String) (b : Bool) :
    ((_createDraft st sid b).1).mainCategories = st.mainCategories := by
  cases b <;> rfl

theorem createDraft_sub (st : ServerState) (sid : String) (b : Bool) :
    ((_createDraft st sid b).1).subCategories = st.subCategories := by
  cases b <;> rfl

theorem createDraft_weight (st : ServerState) (sid : String) (b : Bool) :
    ((_createDraft st sid b).1).weightUnits = st.weightUnits := by
  cases b <;> rfl

theorem createDraft_dimension (st : ServerState) (sid : String) (b : Bool) :
    ((_createDraft st sid b).1).dimensionUnits = st.dimensionUnits := by
  cases b <;> rfl

theorem createDraft_rootUri (st : ServerState) (sid : String) (b : Bool) :
    ((_createDraft st sid b).1).rootUri = st.rootUri := by
  cases b <;> rfl

theorem createDraft_drafts (st : ServerState) (sid : String) (b : Bool) :
    ((_createDraft st sid b).1).productDrafts =
      st.productDrafts ++ [storedDraft st sid b] := by
  cases b with
  | false =>
    show (setEntitySetData _ _ _).productDrafts = _
    simp only [_createDraft, _createProductDraft, getEntitySetData, setEntitySetData]
    refine congrArg (fun x : Entity => st.productDrafts ++ [x]) ?_
    funext k
    by_cases h1 : k = "__metadata"
    · subst h1
      simp [_createDraft, _createProductDraft, _extendMetadata, _getNewId, Entity.set,
        Entity.setOpt, Entity.del, extendFrom_apply, _getWeightUnit, _getDimensionUnit,
        _getFirstFoundEntity, getEntitySetData, setEntitySetData, effectiveKey, jsToString,
        storedDraft, storedDraftId]
    by_cases h2 : k = "Images"
    · subst h2
      simp [_createDraft, _createProductDraft, _extendMetadata, _getNewId, Entity.set,
        Entity.setOpt, Entity.del, extendFrom_apply, _getWeightUnit, _getDimensionUnit,
        _getFirstFoundEntity, getEntitySetData, setEntitySetData, effectiveKey, jsToString,
        storedDraft, storedDraftId]
    by_cases h3 : k = "DimensionUnit"
    · subst h3
      simp [_createDraft, _createProductDraft, _extendMetadata, _getNewId, Entity.set,
        Entity.setOpt, Entity.del, extendFrom_apply, _getWeightUnit, _getDimensionUnit,
        _getFirstFoundEntity, getEntitySetData, setEntitySetData, effectiveKey, jsToString,
        storedDraft, storedDraftId]
    by_cases h4 : k = "WeightUnit"
    · subst h4
      simp [_createDraft, _createProductDraft, _extendMetadata, _getNewId, Entity.set,
        Entity.setOpt, Entity.del, extendFrom_apply, _getWeightUnit, _getDimensionUnit,
        _getFirstFoundEntity, getEntitySetData, setEntitySetData, effectiveKey, jsToString,
        storedDraft, storedDraftId]
    by_cases h5 : k = "ProductId"
    · subst h5
      simp [_createDraft, _createProductDraft, _extendMetadata, _getNewId, Entity.set,
        Entity.setOpt, Entity.del, extendFrom_apply, _getWeightUnit, _getDimensionUnit,
        _getFirstFoundEntity, getEntitySetData, setEntitySetData, effectiveKey, jsToString,
        storedDraft, storedDraftId]
    by_cases h6 : k = "Id"
    · subst h6
      simp [_createDraft, _createProductDraft, _extendMetadata, _getNewId, Entity.set,
        Entity.setOpt, Entity.del, extendFrom_apply, _getWeightUnit, _getDimensionUnit,
        _getFirstFoundEntity, getEntitySetData, setEntitySetData, effectiveKey, jsToString,
        storedDraft, storedDraftId]
    by_cases h7 : k = "IsDirty"
    · subst h7
      simp [_createDraft, _createProductDraft, _extendMetadata, _getNewId, Entity.set,
        Entity.setOpt, Entity.del, extendFrom_apply, _getWeightUnit, _getDimensionUnit,
        _getFirstFoundEntity, getEntitySetData, setEntitySetData, effectiveKey, jsToString,
        storedDraft, storedDraftId]
    by_cases h8 : k = "IsNewProduct"
    · subst h8
      simp [_createDraft, _createProductDraft, _extendMetadata, _getNewId, Entity.set,
        Entity.setOpt, Entity.del, extendFrom_apply, _getWeightUnit, _getDimensionUnit,
        _getFirstFoundEntity, getEntitySetData, setEntitySetData, effectiveKey, jsToString,
        storedDraft, storedDraftId]
    by_cases h9 : k = "CreatedBy"
    · subst h9
      simp [_createDraft, _createProductDraft, _extendMetadata, _getNewId, Entity.set,
        Entity.setOpt, Entity.del, extendFrom_apply, _getWeightUnit, _getDimensionUnit,
        _getFirstFoundEntity, getEntitySetData, setEntitySetData, effectiveKey, jsToString,
        storedDraft, storedDraftId]
    by_cases h10 : k = "HasReviewOfCurrentUser"
    · subst h10
      simp [_createDraft, _createProductDraft, _extendMetadata, _getNewId, Entity.set,
        Entity.setOpt, Entity.del, extendFrom_apply, _getWeightUnit, _getDimensionUnit,
        _getFirstFoundEntity, getEntitySetData, setEntitySetData, effectiveKey, jsToString,
        storedDraft, storedDraftId]
    by_cases h11 : k = "RatingCount"
    · subst h11
      simp [_createDraft, _createProductDraft, _extendMetadata, _getNewId, Entity.set,
        Entity.setOpt, Entity.del, extendFrom_apply, _getWeightUnit, _getDimensionUnit,
        _getFirstFoundEntity, getEntitySetData, setEntitySetData, effectiveKey, jsToString,
        storedDraft, storedDraftId]
    by_cases h12 : k = "IsFavoriteOfCurrentUser"
    · subst h12
      simp [_createDraft, _createProductDraft, _extendMetadata, _getNewId, Entity.set,
        Entity.setOpt, Entity.del, extendFrom_apply, _getWeightUnit, _getDimensionUnit,
        _getFirstFoundEntity, getEntitySetData, setEntitySetData, effectiveKey, jsToString,
        storedDraft, storedDraftId]
    by_cases h13 : k = "StockQuantity"
    · subst h13
      simp [_createDraft, _createProductDraft, _extendMetadata, _getNewId, Entity.set,
        Entity.setOpt, Entity.del, extendFrom_apply, _getWeightUnit, _getDimensionUnit,
        _getFirstFoundEntity, getEntitySetData, setEntitySetData, effectiveKey, jsToString,
        storedDraft, storedDraftId]
    by_cases h14 : k = "AverageRating"
    · subst h14
      simp [_createDraft, _createProductDraft, _extendMetadata, _getNewId, Entity.set,
        Entity.setOpt, Entity.del, extendFrom_apply, _getWeightUnit, _getDimensionUnit,
        _getFirstFoundEntity, getEntitySetData, setEntitySetData, effectiveKey, jsToString,
        storedDraft, storedDraftId]
    simp [_createDraft, _createProductDraft, _extendMetadata, _getNewId, Entity.set,
        Entity.setOpt, Entity.del, extendFrom_apply, _getWeightUnit, _getDimensionUnit,
        _getFirstFoundEntity, getEntitySetData, setEntitySetData, effectiveKey, jsToString,
        storedDraft, storedDraftId, h1, h2, h3, h4, h5, h6, h7, h8, h9, h10, h11, h12, h13, h14]
  | true =>
    show (setEntitySetData _ _ _).productDrafts = _
    simp only [_createDraft, _createProductDraft, _getNewId, getEntitySetData, setEntitySetData]
    refine congrArg (fun x : Entity => st.productDrafts ++ [x]) ?_
    funext k
    by_cases h1 : k = "__metadata"
    · subst h1
      simp [_createDraft, _createProductDraft, _extendMetadata, _getNewId, Entity.set,
        Entity.setOpt, Entity.del, extendFrom_apply, _getWeightUnit, _getDimensionUnit,
        _getFirstFoundEntity, getEntitySetData, setEntitySetData, effectiveKey, jsToString,
        storedDraft, storedDraftId]
    by_cases h2 : k = "Images"
    · subst h2
      simp [_createDraft, _createProductDraft, _extendMetadata, _getNewId, Entity.set,
        Entity.setOpt, Entity.del, extendFrom_apply, _getWeightUnit, _getDimensionUnit,
        _getFirstFoundEntity, getEntitySetData, setEntitySetData, effectiveKey, jsToString,
        storedDraft, storedDraftId]
    by_cases h3 : k = "DimensionUnit"
    · subst h3
      simp [_createDraft, _createProductDraft, _extendMetadata, _getNewId, Entity.set,
        Entity.setOpt, Entity.del, extendFrom_apply, _getWeightUnit, _getDimensionUnit,
        _getFirstFoundEntity, getEntitySetData, setEntitySetData, effectiveKey, jsToString,
        storedDraft, storedDraftId]
    by_cases h4 : k = "WeightUnit"
    · subst h4
      simp [_createDraft, _createProductDraft, _extendMetadata, _getNewId, Entity.set,
        Entity.setOpt, Entity.del, extendFrom_apply, _getWeightUnit, _getDimensionUnit,
        _getFirstFoundEntity, getEntitySetData, setEntitySetData, effectiveKey, jsToString,
        storedDraft, storedDraftId]
    by_cases h5 : k = "ProductId"
    · subst h5
      simp [_createDraft, _createProductDraft, _extendMetadata, _getNewId, Entity.set,
        Entity.setOpt, Entity.del, extendFrom_apply, _getWeightUnit, _getDimensionUnit,
        _getFirstFoundEntity, getEntitySetData, setEntitySetData, effectiveKey, jsToString,
        storedDraft, storedDraftId]
    by_cases h6 : k = "Id"
    · subst h6
      simp [_createDraft, _createProductDraft, _extendMetadata, _getNewId, Entity.set,
        Entity.setOpt, Entity.del, extendFrom_apply, _getWeightUnit, _getDimensionUnit,
        _getFirstFoundEntity, getEntitySetData, setEntitySetData, effectiveKey, jsToString,
        storedDraft, storedDraftId]
    by_cases h7 : k = "IsDirty"
    · subst h7
      simp [_createDraft, _createProductDraft, _extendMetadata, _getNewId, Entity.set,
        Entity.setOpt, Entity.del, extendFrom_apply, _getWeightUnit, _getDimensionUnit,
        _getFirstFoundEntity, getEntitySetData, setEntitySetData, effectiveKey, jsToString,
        storedDraft, storedDraftId]
    by_cases h8 : k = "IsNewProduct"
    · subst h8
      simp [_createDraft, _createProductDraft, _extendMetadata, _getNewId, Entity.set,
        Entity.setOpt, Entity.del, extendFrom_apply, _getWeightUnit, _getDimensionUnit,
        _getFirstFoundEntity, getEntitySetData, setEntitySetData, effectiveKey, jsToString,
        storedDraft, storedDraftId]
    by_cases h9 : k = "CreatedBy"
    · subst h9
      simp [_createDraft, _createProductDraft, _extendMetadata, _getNewId, Entity.set,
        Entity.setOpt, Entity.del, extendFrom_apply, _getWeightUnit, _getDimensionUnit,
        _getFirstFoundEntity, getEntitySetData, setEntitySetData, effectiveKey, jsToString,
        storedDraft, storedDraftId]
    by_cases h10 : k = "HasReviewOfCurrentUser"
    · subst h10
      simp [_createDraft, _createProductDraft, _extendMetadata, _getNewId, Entity.set,
        Entity.setOpt, Entity.del, extendFrom_apply, _getWeightUnit, _getDimensionUnit,
        _getFirstFoundEntity, getEntitySetData, setEntitySetData, effectiveKey, jsToString,
        storedDraft, storedDraftId]
    by_cases h11 : k = "RatingCount"
    · subst h11
      simp [_createDraft, _createProductDraft, _extendMetadata, _getNewId, Entity.set,
        Entity.setOpt, Entity.del, extendFrom_apply, _getWeightUnit, _getDimensionUnit,
        _getFirstFoundEntity, getEntitySetData, setEntitySetData, effectiveKey, jsToString,
        storedDraft, storedDraftId]
    by_cases h12 : k = "IsFavoriteOfCurrentUser"
    · subst h12
      simp [_createDraft, _createProductDraft, _extendMetadata, _getNewId, Entity.set,
        Entity.setOpt, Entity.del, extendFrom_apply, _getWeightUnit, _getDimensionUnit,
        _getFirstFoundEntity, getEntitySetData, setEntitySetData, effectiveKey, jsToString,
        storedDraft, storedDraftId]
    by_cases h13 : k = "StockQuantity"
    · subst h13
      simp [_createDraft, _createProductDraft, _extendMetadata, _getNewId, Entity.set,
        Entity.setOpt, Entity.del, extendFrom_apply, _getWeightUnit, _getDimensionUnit,
        _getFirstFoundEntity, getEntitySetData, setEntitySetData, effectiveKey, jsToString,
        storedDraft, storedDraftId]
    by_cases h14 : k = "AverageRating"
    · subst h14
      simp [_createDraft, _createProductDraft, _extendMetadata, _getNewId, Entity.set,
        Entity.setOpt, Entity.del, extendFrom_apply, _getWeightUnit, _getDimensionUnit,
        _getFirstFoundEntity, getEntitySetData, setEntitySetData, effectiveKey, jsToString,
        storedDraft, storedDraftId]
    simp [_createDraft, _createProductDraft, _extendMetadata, _getNewId, Entity.set,
        Entity.setOpt, Entity.del, extendFrom_apply, _getWeightUnit, _getDimensionUnit,
        _getFirstFoundEntity, getEntitySetData, setEntitySetData, effectiveKey, jsToString,
        storedDraft, storedDraftId, h1, h2, h3, h4, h5, h6, h7, h8, h9, h10, h11, h12, h13, h14]

/-- C3: for every draft created through the generic ProductDrafts creation path whose
ProductId field is absent or empty, the post creation defaulting step leaves the draft
with exactly the configured default values CurrencyCode EUR, DimensionUnit MTR, IsDirty
false, IsNewProduct true, QuantityUnit EA, MeasureUnit each and WeightUnit KGM; the
same defaults are merged into the stored draft row by the old interface rule. -/
theorem C3_new_draft_defaults (st : ServerState) (e : Entity)
    (h : e "ProductId" = none ∨ e "ProductId" = some (.vStr "")) :
    (onAfterDraftCreated e) "CurrencyCode" = some (.vStr "EUR") ∧
    (onAfterDraftCreated e) "DimensionUnit" = some (.vStr "MTR") ∧
    (onAfterDraftCreated e) "IsDirty" = some (.vBool false) ∧
    (onAfterDraftCreated e) "IsNewProduct" = some (.vBool true) ∧
    (onAfterDraftCreated e) "QuantityUnit" = some (.vStr "EA") ∧
    (onAfterDraftCreated e) "MeasureUnit" = some (.vStr "each") ∧
    (onAfterDraftCreated e) "WeightUnit" = some (.vStr "KGM") ∧
    (_mockAddProduct st e).productDrafts = st.productDrafts.map (fun r =>
      if jsEq (r "Id") (e "Id") then Entity.extend r _oNewDraftDefaultValues else r) := by
  have ht : truthy (e "ProductId") = false := by
    rcases h with hh | hh <;> simp [hh]
  unfold onAfterDraftCreated _mockAddProduct
  simp [ht, Entity.extend, _oNewDraftDefaultValues, Entity.ofList, _updateProductDraft,
    _updateEntity, getEntitySetData, setEntitySetData, List.find?]

/-- C3 witness: the defaults on a draft created by the add button, on the scenario
store. -/
theorem C3_witness :
    (onAfterDraftCreated FreshAddDraft) "CurrencyCode" = some (.vStr "EUR") ∧
    (onAfterDraftCreated FreshAddDraft) "DimensionUnit" = some (.vStr "MTR") ∧
    (onAfterDraftCreated FreshAddDraft) "IsDirty" = some (.vBool false) ∧
    (onAfterDraftCreated FreshAddDraft) "IsNewProduct" = some (.vBool true) ∧
    (onAfterDraftCreated FreshAddDraft) "QuantityUnit" = some (.vStr "EA") ∧
    (onAfterDraftCreated FreshAddDraft) "MeasureUnit" = some (.vStr "each") ∧
    (onAfterDraftCreated FreshAddDraft) "WeightUnit" = some (.vStr "KGM") ∧
    (_mockAddProduct ScenarioState FreshAddDraft).productDrafts =
      ScenarioState.productDrafts.map (fun r =>
        if jsEq (r "Id") (FreshAddDraft "Id") then Entity.extend r _oNewDraftDefaultValues
        else r) :=
  C3_new_draft_defaults ScenarioState FreshAddDraft (Or.inl rfl)

/-- C9: for every draft created through the generic ProductDrafts creation path whose
ProductId field is present and a non empty string (edit and copy drafts), the post
creation defaulting step leaves the draft completely unchanged, in both the attachAfter
hook form and the old interface rule form. -/
theorem C9_defaulting_frame (st : ServerState) (e : Entity) (s : String)
    (h : e "ProductId" = some (.vStr s)) (hs : s ≠ "") :
    onAfterDraftCreated e = e ∧ _mockAddProduct st e = st := by
  have ht : truthy (e "ProductId") = true := by simp [h, hs]
  constructor <;> simp [onAfterDraftCreated, _mockAddProduct, ht]

/-- C9 witness: the defaulting step on an edit draft row and the scenario store. -/
theorem C9_witness :
    onAfterDraftCreated EditedDraftRow = EditedDraftRow ∧
    _mockAddProduct ScenarioState EditedDraftRow = ScenarioState :=
  C9_defaulting_frame ScenarioState EditedDraftRow "HT-1000" rfl (by decide)

/-- C8: for every collection and lookup key, getFirstFoundEntity returns the first
matching row when one exists, and on a miss returns the falsy sentinel (none in this
model, the JS value false) rather than raising; the handlers consume the sentinel
without a guard: the unit conversion reads Shorttext off the sentinel and yields
undefined, and createDraft on a guaranteed product lookup miss still builds and stores
a draft. -/
theorem C8_lookup_falsy_unguarded (st : ServerState) (sName : String) (sId : Option Value)
    (sKey : Option String) (sid : String) (b : Bool) :
    (∀ pre r post, getEntitySetData st sName = pre ++ r :: post →
        (∀ q ∈ pre, jsEq (q (effectiveKey sKey)) sId = false) →
        jsEq (r (effectiveKey sKey)) sId = true →
        _getFirstFoundEntity st sName sId sKey = some r) ∧
    ((∀ q ∈ getEntitySetData st sName, jsEq (q (effectiveKey sKey)) sId = false) →
        _getFirstFoundEntity st sName sId sKey = none) ∧
    ((∀ q ∈ st.weightUnits, jsEq (q "Unit") sId = false) → _getWeightText st sId = none) ∧
    ((∀ q ∈ st.products, jsEq (q "Id") (some (.vStr sid)) = false) →
        ((_createDraft st sid b).1).productDrafts =
          st.productDrafts ++ [storedDraft st sid b] ∧
        storedDraft st sid b "CreatedBy" = some (.vStr "Test User")) := by
  refine ⟨?_, ?_, ?_, ?_⟩
  · intro pre r post hsplit hpre hr
    unfold _getFirstFoundEntity
    rw [hsplit]
    exact find?_first _ pre post r hpre hr
  · intro hmiss
    unfold _getFirstFoundEntity
    exact find?_all_false _ _ hmiss
  · intro hmiss
    simp only [_getWeightText, _getFirstFoundEntity, getEntitySetData, effectiveKey]
    rw [show (if ("Unit" : String) = "" then "Id" else "Unit") = "Unit" by simp]
    rw [find?_all_false (fun e => jsEq (e "Unit") sId) st.weightUnits hmiss]
    rfl
  · intro hmiss
    refine ⟨createDraft_drafts st sid b, ?_⟩
    simp [storedDraft]

/-- C8 witness: a missed product lookup, a missed weight unit conversion and the draft
still created by createDraft after a missed product lookup, on the scenario store. -/
theorem C8_witness :
    _getFirstFoundEntity ScenarioState "Products" (some (.vStr "NOPE")) none = none ∧
    _getWeightText ScenarioState (some (.vStr "NOPE")) = none ∧
    ((_createDraft ScenarioState "NOPE" false).1).productDrafts =
      ScenarioState.productDrafts ++ [storedDraft ScenarioState "NOPE" false] ∧
    storedDraft ScenarioState "NOPE" false "CreatedBy" = some (.vStr "Test User") := by
  refine ⟨?_, ?_, ?_⟩
  · exact (C8_lookup_falsy_unguarded ScenarioState "Products" (some (.vStr "NOPE"))
      none "NOPE" false).2.1 (by simp [getEntitySetData, ScenarioState])
  · exact (C8_lookup_falsy_unguarded ScenarioState "WeightUnits" (some (.vStr "NOPE"))
      none "NOPE" false).2.2.1 (by
        intro q hq
        simp only [ScenarioState, List.mem_singleton] at hq
        subst hq
        rfl)
  · exact (C8_lookup_falsy_unguarded ScenarioState "Products" (some (.vStr "NOPE"))
      none "NOPE" false).2.2.2 (by simp [ScenarioState])

theorem jsEq_refl_str (v : Option Value) (h : isStrField v = true) : jsEq v v = true := by
  cases v with
  | none => simp [isStrField] at h
  | some w => cases w <;> simp_all [isStrField, jsEq]

theorem find?_some_exists {α : Type} (p : α → Bool) (l : List α) (x : α) (hx : x ∈ l)
    (hp : p x = true) : ∃ r, l.find? p = some r ∧ r ∈ l ∧ p r = true := by
  induction l with
  | nil => cases hx
  | cons a as ih =>
    by_cases ha : p a = true
    · exact ⟨a, List.find?_cons_of_pos _ ha, List.mem_cons_self a as, ha⟩
    · have ha2 : p a = false := by simpa using ha
      rcases List.mem_cons.mp hx with rfl | hx2
      · exact absurd hp ha
      · rcases ih hx2 with ⟨r, h1, h2, h3⟩
        exact ⟨r, by rw [List.find?_cons_of_neg _ (by simp [ha2])]; exact h1,
          List.mem_cons_of_mem _ h2, h3⟩

theorem unitTableWF_cons {a : Entity} {rest : List Entity}
    (h : unitTableWF (a :: rest) = true) :
    isStrField (a "Unit") = true ∧ isStrField (a "Shorttext") = true ∧
    (∀ r ∈ rest,
      jsEq (r "Unit") (a "Unit") = false ∧ jsEq (r "Shorttext") (a "Shorttext") = false) ∧
    unitTableWF rest = true := by
  simp only [unitTableWF, Bool.and_eq_true, List.all_eq_true] at h
  obtain ⟨⟨⟨h1, h2⟩, h3⟩, h4⟩ := h
  refine ⟨h1, h2, ?_, h4⟩
  intro r hr
  have h5 := h3 r hr
  simp only [Bool.and_eq_true, Bool.not_eq_true'] at h5
  exact h5

theorem unitTableWF_mem {l : List Entity} (h : unitTableWF l = true) {e : Entity}
    (he : e ∈ l) : isStrField (e "Unit") = true ∧ isStrField (e "Shorttext") = true := by
  induction l with
  | nil => cases he
  | cons a rest ih =>
    obtain ⟨h1, h2, _, h4⟩ := unitTableWF_cons h
    rcases List.mem_cons.mp he with rfl | he2
    · exact ⟨h1, h2⟩
    · exact ih h4 he2

theorem unit_roundtrip_aux (l : List Entity) (e : Entity)
    (hWF : unitTableWF l = true) (he : e ∈ l) :
    fieldOf (l.find? (fun x => jsEq (x "Shorttext")
        (fieldOf (l.find? (fun x => jsEq (x "Unit") (e "Unit"))) "Shorttext"))) "Unit"
      = e "Unit" := by
  induction l with
  | nil => cases he
  | cons a rest ih =>
    obtain ⟨h1, h2, h3, h4⟩ := unitTableWF_cons hWF
    rcases List.mem_cons.mp he with rfl | he2
    · have hrefl : jsEq (e "Unit") (e "Unit") = true := jsEq_refl_str _ h1
      have hT : (e :: rest).find? (fun x => jsEq (x "Unit") (e "Unit")) = some e :=
        List.find?_cons_of_pos _ hrefl
      simp only [hT]
      have hrefl2 : jsEq (e "Shorttext") (fieldOf (some e) "Shorttext") = true := by
        simpa [fieldOf] using jsEq_refl_str _ h2
      have hO : (e :: rest).find?
          (fun x => jsEq (x "Shorttext") (fieldOf (some e) "Shorttext")) = some e :=
        List.find?_cons_of_pos _ hrefl2
      rw [hO]
      rfl
    · have hneg1 : jsEq (a "Unit") (e "Unit") = false := by
        rw [jsEq_symm]; exact (h3 e he2).1
      have hestr := (unitTableWF_mem h4 he2).1
      rcases find?_some_exists (fun x => jsEq (x "Unit") (e "Unit")) rest e he2
        (jsEq_refl_str _ hestr) with ⟨r, hfind, hrmem, hrpred⟩
      have hT : (a :: rest).find? (fun x => jsEq (x "Unit") (e "Unit")) = some r := by
        rw [List.find?_cons_of_neg _ (by simp [hneg1])]; exact hfind
      simp only [hT]
      have hneg2 : jsEq (a "Shorttext") (fieldOf (some r) "Shorttext") = false := by
        have h5 := (h3 r hrmem).2
        rw [jsEq_symm] at h5
        simpa [fieldOf] using h5
      have hO : (a :: rest).find?
          (fun x => jsEq (x "Shorttext") (fieldOf (some r) "Shorttext")) =
          rest.find? (fun x => jsEq (x "Shorttext") (fieldOf (some r) "Shorttext")) :=
        List.find?_cons_of_neg _ (by simp [hneg2])
      rw [hO]
      have h6 := ih h4 he2
      rw [hfind] at h6
      exact h6

/-- C4: for every entry of the WeightUnits table and every entry of the DimensionUnits
table of a store whose tables are well formed in the sense the spec describes (string
valued Unit and Shorttext, no duplicates on either side), converting the entry unit
code to display text and back reproduces the original unit code. -/
theorem C4_unit_roundtrip (st : ServerState)
    (hw : unitTableWF st.weightUnits = true) (hd : unitTableWF st.dimensionUnits = true) :
    (∀ e ∈ st.weightUnits, _getWeightUnit st (_getWeightText st (e "Unit")) = e "Unit") ∧
    (∀ e ∈ st.dimensionUnits,
      _getDimensionUnit st (_getDimensionText st (e "Unit")) = e "Unit") := by
  constructor
  · intro e he
    have h := unit_roundtrip_aux st.weightUnits e hw he
    simpa [_getWeightUnit, _getWeightText, _getFirstFoundEntity, getEntitySetData,
      effectiveKey] using h
  · intro e he
    have h := unit_roundtrip_aux st.dimensionUnits e hd he
    simpa [_getDimensionUnit, _getDimensionText, _getFirstFoundEntity, getEntitySetData,
      effectiveKey] using h

/-- C4 witness: the round trip on the single rows of the scenario unit tables. -/
theorem C4_witness :
    _getWeightUnit ScenarioState (_getWeightText ScenarioState
      ((Entity.ofList [("Unit", .vStr "KG"), ("Shorttext", .vStr "kg")]) "Unit")) =
      (Entity.ofList [("Unit", .vStr "KG"), ("Shorttext", .vStr "kg")]) "Unit" ∧
    _getDimensionUnit ScenarioState (_getDimensionText ScenarioState
      ((Entity.ofList [("Unit", .vStr "MTR"), ("Shorttext", .vStr "m")]) "Unit")) =
      (Entity.ofList [("Unit", .vStr "MTR"), ("Shorttext", .vStr "m")]) "Unit" :=
  ⟨(C4_unit_roundtrip ScenarioState rfl rfl).1 _ (by simp [ScenarioState]),
   (C4_unit_roundtrip ScenarioState rfl rfl).2 _ (by simp [ScenarioState])⟩

theorem noDupIds_filter (l : List Entity) (p : Entity → Bool)
    (h : noDupIds l = true) : noDupIds (l.filter p) = true := by
  induction l with
  | nil => simp [noDupIds]
  | cons a rest ih =>
    simp only [noDupIds, Bool.and_eq_true, List.all_eq_true] at h
    obtain ⟨hall, hrest⟩ := h
    by_cases hpa : p a = true
    · simp only [List.filter_cons, hpa, if_true]
      simp only [noDupIds, Bool.and_eq_true, List.all_eq_true]
      exact ⟨fun x hx => hall x (List.mem_filter.mp hx).1, ih hrest⟩
    · have hpa2 : p a = false := by simpa using hpa
      simp only [List.filter_cons, hpa2, Bool.false_eq_true, if_false]
      exact ih hrest

/-- C5 counterexample: on a store whose counter is fresh while a product already
carries the id EPM-1, the copy flow stores a draft whose Id equals the id of that
existing product, refuting the claim that the copy flow allocates an id distinct from
every existing draft and product id in every state. -/
theorem C5_counterexample :
    (((_createDraft CopyClashState "EPM-1" true).1).productDrafts.map (fun d => d "Id")) =
      [some (.vStr "EPM-1")] ∧
    (CopyClashState.products.map (fun p => p "Id")) = [some (.vStr "EPM-1")] :=
  ⟨rfl, rfl⟩

/-- C5 amended: the copy flow assigns the stored draft the id EPM- followed by the
incremented counter; provided every existing draft and product id of the generated
shape has a numeric suffix at most the current counter (which holds when all such ids
were allocated by the counter of this session, the uniqueness scope the spec states),
that id is distinct from every existing draft and product id. The edit flow assigns
both the draft Id and its ProductId the source product id unconditionally. -/
theorem C5_amended_id_allocation (st : ServerState) (sid : String)
    (hd : ∀ e ∈ st.productDrafts, ∀ k : Nat, st.lastId < k →
      e "Id" ≠ some (.vStr ("EPM-" ++ toString k)))
    (hp : ∀ e ∈ st.products, ∀ k : Nat, st.lastId < k →
      e "Id" ≠ some (.vStr ("EPM-" ++ toString k))) :
    ((_createDraft st sid true).1).productDrafts =
      st.productDrafts ++ [storedDraft st sid true] ∧
    storedDraft st sid true "Id" = some (.vStr ("EPM-" ++ toString (st.lastId + 1))) ∧
    (∀ e ∈ st.productDrafts, e "Id" ≠ storedDraft st sid true "Id") ∧
    (∀ e ∈ st.products, e "Id" ≠ storedDraft st sid true "Id") ∧
    ((_createDraft st sid false).1).productDrafts =
      st.productDrafts ++ [storedDraft st sid false] ∧
    storedDraft st sid false "Id" = some (.vStr sid) ∧
    storedDraft st sid false "ProductId" = some (.vStr sid) := by
  have hid : storedDraft st sid true "Id" =
      some (.vStr ("EPM-" ++ toString (st.lastId + 1))) := by
    simp [storedDraft, storedDraftId]
  refine ⟨createDraft_drafts st sid true, hid, ?_, ?_,
    createDraft_drafts st sid false, ?_, ?_⟩
  · intro e he
    rw [hid]
    exact hd e he (st.lastId + 1) (Nat.lt_succ_self _)
  · intro e he
    rw [hid]
    exact hp e he (st.lastId + 1) (Nat.lt_succ_self _)
  · simp [storedDraft, storedDraftId]
  · simp [storedDraft, storedDraftId]

/-- C5 witness: the amended allocation statement on the empty store. -/
theorem C5_witness :
    ((_createDraft EmptyStoreState "HT-1000" true).1).productDrafts =
      EmptyStoreState.productDrafts ++ [storedDraft EmptyStoreState "HT-1000" true] ∧
    storedDraft EmptyStoreState "HT-1000" true "Id" =
      some (.vStr ("EPM-" ++ toString (EmptyStoreState.lastId + 1))) ∧
    (∀ e ∈ EmptyStoreState.productDrafts,
      e "Id" ≠ storedDraft EmptyStoreState "HT-1000" true "Id") ∧
    (∀ e ∈ EmptyStoreState.products,
      e "Id" ≠ storedDraft EmptyStoreState "HT-1000" true "Id") ∧
    ((_createDraft EmptyStoreState "HT-1000" false).1).productDrafts =
      EmptyStoreState.productDrafts ++ [storedDraft EmptyStoreState "HT-1000" false] ∧
    storedDraft EmptyStoreState "HT-1000" false "Id" = some (.vStr "HT-1000") ∧
    storedDraft EmptyStoreState "HT-1000" false "ProductId" = some (.vStr "HT-1000") :=
  C5_amended_id_allocation EmptyStoreState "HT-1000"
    (by intro e he; simp [EmptyStoreState] at he)
    (by intro e he; simp [EmptyStoreState] at he)

/-- C6 counterexample: a store holding one product P1 and one draft with id P1
satisfies the at most one draft row per Id invariant, yet the EditProduct handler run
on P1 produces a ProductDrafts collection with two rows carrying the id P1, refuting
the claim that the invariant is preserved by every handler. -/
theorem C6_counterexample :
    noDupIds DoubleEditState.productDrafts = true ∧
    noDupIds ((_mockEditProduct DoubleEditState "P1").1).productDrafts = false :=
  ⟨rfl, rfl⟩

/-- C6 amended: activation preserves the at most one draft row per Id invariant, and
deletes every draft row carrying the activated id within the same handler invocation:
the state it returns contains no such row. Draft creation, by contrast, does not
preserve the invariant in general (see the counterexample). -/
theorem C6_amended_activation_invariant (st : ServerState) (sid : String)
    (st2 : ServerState) (resp : Option Entity)
    (hinv : noDupIds st.productDrafts = true)
    (hact : _mockActivateProduct st sid = some (st2, resp)) :
    noDupIds st2.productDrafts = true ∧
    ∀ q ∈ st2.productDrafts, jsEq (q "Id") (some (.vStr sid)) = false := by
  rcases hfind : _getProductDraft st (some (.vStr sid)) with _ | d
  · simp [_mockActivateProduct, hfind] at hact
  · have hfind2 : (getEntitySetData st "ProductDrafts").find?
        (fun e => jsEq (e (effectiveKey none)) (some (.vStr sid))) = some d := hfind
    have hpred := List.find?_some hfind2
    have hid : d "Id" = some (.vStr sid) := (jsEq_vStr_iff _ _).mp hpred
    simp only [_mockActivateProduct, hfind, Option.some.injEq, Prod.mk.injEq] at hact
    obtain ⟨hst2, _⟩ := hact
    have hdrafts : st2.productDrafts =
        st.productDrafts.filter (fun q => !(jsEq (q "Id") (some (.vStr sid)))) := by
      rw [← hst2]
      split <;> simp [build_fst, hid]
    constructor
    · rw [hdrafts]
      exact noDupIds_filter _ _ hinv
    · intro q hq
      rw [hdrafts] at hq
      have := (List.mem_filter.mp hq).2
      simpa using this

/-- C6 witness: the amended invariant on the activation of the scenario draft. -/
theorem C6_witness :
    ∃ st2 resp, _mockActivateProduct ScenarioState "EPM-1" = some (st2, resp) ∧
      noDupIds st2.productDrafts = true ∧
      ∀ q ∈ st2.productDrafts, jsEq (q "Id") (some (.vStr "EPM-1")) = false :=
  ⟨_, _, rfl, C6_amended_activation_invariant ScenarioState "EPM-1" _ _ rfl rfl⟩

/-- C10: the copy flow stores a draft whose ProductId equals its own freshly generated
Id, EPM- followed by the incremented counter, and not the id of the source product:
whenever the source id differs from the generated id, neither the Id nor the ProductId
of the stored draft carries the source id. -/
theorem C10_copy_productid (st : ServerState) (sid : String) :
    storedDraft st sid true "Id" = some (.vStr ("EPM-" ++ toString (st.lastId + 1))) ∧
    storedDraft st sid true "ProductId" = storedDraft st sid true "Id" ∧
    ((_createDraft st sid true).1).productDrafts =
      st.productDrafts ++ [storedDraft st sid true] ∧
    (sid ≠ "EPM-" ++ toString (st.lastId + 1) →
      storedDraft st sid true "Id" ≠ some (.vStr sid) ∧
      storedDraft st sid true "ProductId" ≠ some (.vStr sid)) := by
  refine ⟨?_, ?_, createDraft_drafts st sid true, ?_⟩
  · simp [storedDraft, storedDraftId]
  · simp [storedDraft, storedDraftId]
  · intro hne
    constructor <;>
      · simp only [storedDraft, storedDraftId]
        simp
        exact fun h => hne h.symm

/-- C10 witness: the copy flow on the empty store and the source id HT-1000. -/
theorem C10_witness :
    storedDraft EmptyStoreState "HT-1000" true "Id" = some (.vStr "EPM-1") ∧
    storedDraft EmptyStoreState "HT-1000" true "ProductId" =
      storedDraft EmptyStoreState "HT-1000" true "Id" ∧
    ((_createDraft EmptyStoreState "HT-1000" true).1).productDrafts =
      EmptyStoreState.productDrafts ++ [storedDraft EmptyStoreState "HT-1000" true] ∧
    storedDraft EmptyStoreState "HT-1000" true "Id" ≠ some (.vStr "HT-1000") ∧
    storedDraft EmptyStoreState "HT-1000" true "ProductId" ≠ some (.vStr "HT-1000") := by
  obtain ⟨h1, h2, h3, h4⟩ := C10_copy_productid EmptyStoreState "HT-1000"
  obtain ⟨h5, h6⟩ := h4 (by decide)
  exact ⟨h1, h2, h3, h5, h6⟩

theorem jsEq_vStr_self (s : String) : jsEq (some (.vStr s)) (some (.vStr s)) = true := by
  simp [jsEq]

theorem map_id_on {α : Type} (f : α → α) (l : List α) (h : ∀ a ∈ l, f a = a) :
    l.map f = l := by
  induction l with
  | nil => rfl
  | cons a as ih =>
    simp only [List.map_cons, h a (by simp)]
    rw [ih (fun x hx => h x (by simp [hx]))]

theorem extend_eq_of_agree (P prod : Entity) (k : String) (hv : prod k = P k) :
    Entity.extend P prod k = P k := by
  unfold Entity.extend
  rw [hv]
  cases P k <;> rfl

theorem extend_eq_of_none (P prod : Entity) (k : String) (hv : prod k = none) :
    Entity.extend P prod k = P k := by
  unfold Entity.extend
  rw [hv]

/-- C2: round trip. For a published product P, located under its id with no other row
sharing the id and no pending draft under the id, whose category name fields agree with
the category tables, whose unit fields survive the display text to internal code and
back conversion, and which carries no CreatedBy field (a draft only field per the data
model), creating an edit draft from it and activating that draft yields a Products row
in which every field of the original product, the product only aggregates included, has
the value it had before the edit; the collection shape is unchanged. -/
theorem C2_edit_roundtrip (st : ServerState) (sid : String) (P : Entity)
    (pre post : List Entity)
    (hsplit : st.products = pre ++ P :: post)
    (hpre : ∀ q ∈ pre, jsEq (q "Id") (some (.vStr sid)) = false)
    (hpost : ∀ q ∈ post, jsEq (q "Id") (some (.vStr sid)) = false)
    (hPid : P "Id" = some (.vStr sid))
    (hnodraft : ∀ q ∈ st.productDrafts, jsEq (q "Id") (some (.vStr sid)) = false)
    (hW : _getWeightText st (_getWeightUnit st (P "WeightUnit")) = P "WeightUnit")
    (hDim : _getDimensionText st (_getDimensionUnit st (P "DimensionUnit")) =
      P "DimensionUnit")
    (hS : fieldOf (_getSubCategory st (P "SubCategoryId")) "Name" = P "SubCategoryName")
    (hM : fieldOf (_getMainCategory st (P "MainCategoryId")) "Name" = P "MainCategoryName")
    (hCB : P "CreatedBy" = none) :
    ∃ st2 resp P2, editThenActivate st sid = some (st2, resp) ∧
      st2.products = pre ++ P2 :: post ∧
      st2.products.length = st.products.length ∧
      ∀ k, (P k).isSome → P2 k = P k := by
  have hgetP : _getProduct st (some (.vStr sid)) = some P := by
    unfold _getProduct _getFirstFoundEntity
    simp only [getEntitySetData]
    rw [hsplit]
    exact find?_first _ pre post P (fun q hq => hpre q hq) (by
      show jsEq (P (effectiveKey none)) (some (.vStr sid)) = true
      simp [effectiveKey, hPid, jsEq])
  have hDid : storedDraft st sid false "Id" = some (.vStr sid) := by
    simp [storedDraft, storedDraftId]
  have hDnew : storedDraft st sid false "IsNewProduct" = some (.vBool false) := by
    simp [storedDraft]
  have hgetD : _getProductDraft (_createDraft st sid false).1 (some (.vStr sid)) =
      some (storedDraft st sid false) := by
    unfold _getProductDraft _getFirstFoundEntity
    simp only [getEntitySetData, createDraft_drafts]
    rw [find?_append_left (fun e => jsEq (e (effectiveKey none)) (some (.vStr sid)))
      st.productDrafts [storedDraft st sid false] (fun q hq => hnodraft q hq)]
    exact List.find?_cons_of_pos _ (by
      show jsEq (storedDraft st sid false (effectiveKey none)) (some (.vStr sid)) = true
      simp [effectiveKey, hDid, jsEq])
  have hprodid : (_buildProductFromDraft (_createDraft st sid false).1
      (storedDraft st sid false)).2 "Id" = some (.vStr sid) := by
    rw [build_snd_apply]
    simp [hDid]
  have hcond : (truthy (storedDraft st sid false "IsNewProduct") ||
      (storedDraft st sid false "IsNewProduct").isNone) = false := by
    simp [hDnew]
  simp only [editThenActivate, _mockEditProduct, _mockActivateProduct, hgetD, hcond,
    Bool.false_eq_true, if_false]
  refine ⟨_, _, Entity.extend P (_buildProductFromDraft (_createDraft st sid false).1
    (storedDraft st sid false)).2, rfl, ?_, ?_, ?_⟩
  · simp only [updateProduct_products, build_fst, createDraft_products, hprodid]
    rw [hsplit, List.map_append, List.map_cons]
    simp only [hPid, jsEq_vStr_self, if_true]
    rw [map_id_on _ pre (fun q hq => by simp [hpre q hq]),
      map_id_on _ post (fun q hq => by simp [hpost q hq])]
  · simp only [updateProduct_products, build_fst, createDraft_products, List.length_map]
  · intro k hk
    by_cases h1 : k = "Id"
    · subst h1
      refine extend_eq_of_agree P _ _ ?_
      rw [hprodid, hPid]
    by_cases h2 : k = "CreatedBy"
    · subst h2
      simp [hCB] at hk
    by_cases h3 : k = "__metadata"
    · subst h3
      refine extend_eq_of_none P _ _ ?_
      rw [build_snd_apply]
      simp
    by_cases h4 : k = "Images"
    · subst h4
      refine extend_eq_of_none P _ _ ?_
      rw [build_snd_apply]
      simp
    by_cases h5 : k = "IsNewProduct"
    · subst h5
      refine extend_eq_of_none P _ _ ?_
      rw [build_snd_apply]
      simp
    by_cases h6 : k = "ExpiresAt"
    · subst h6
      refine extend_eq_of_none P _ _ ?_
      rw [build_snd_apply]
      simp
    by_cases h7 : k = "ProductId"
    · subst h7
      refine extend_eq_of_none P _ _ ?_
      rw [build_snd_apply]
      simp
    by_cases h8 : k = "IsDirty"
    · subst h8
      refine extend_eq_of_none P _ _ ?_
      rw [build_snd_apply]
      simp
    by_cases h9 : k = "RatingCount"
    · subst h9
      refine extend_eq_of_none P _ _ ?_
      rw [build_snd_apply]
      simp [isNewFlag, hDnew, storedDraft]
    by_cases h10 : k = "AverageRating"
    · subst h10
      refine extend_eq_of_none P _ _ ?_
      rw [build_snd_apply]
      simp [isNewFlag, hDnew, storedDraft]
    by_cases h11 : k = "StockQuantity"
    · subst h11
      refine extend_eq_of_none P _ _ ?_
      rw [build_snd_apply]
      simp [isNewFlag, hDnew, storedDraft]
    by_cases h12 : k = "HasReviewOfCurrentUser"
    · subst h12
      refine extend_eq_of_none P _ _ ?_
      rw [build_snd_apply]
      simp [storedDraft]
    by_cases h13 : k = "IsFavoriteOfCurrentUser"
    · subst h13
      refine extend_eq_of_none P _ _ ?_
      rw [build_snd_apply]
      simp [storedDraft]
    by_cases h14 : k = "SubCategoryName"
    · subst h14
      refine extend_eq_of_agree P _ _ ?_
      rw [build_snd_apply]
      have ha : storedDraft st sid false "SubCategoryId" = P "SubCategoryId" := by
        simp [storedDraft, hgetP, fieldOf]
      have hb : _getSubCategory (_createDraft st sid false).1 (P "SubCategoryId") =
          _getSubCategory st (P "SubCategoryId") := by
        simp [_getSubCategory, _getFirstFoundEntity, getEntitySetData, createDraft_sub]
      simp only [ha, hb]
      simp [hS]
    by_cases h15 : k = "MainCategoryName"
    · subst h15
      refine extend_eq_of_agree P _ _ ?_
      rw [build_snd_apply]
      have ha : storedDraft st sid false "MainCategoryId" = P "MainCategoryId" := by
        simp [storedDraft, hgetP, fieldOf]
      have hb : _getMainCategory (_createDraft st sid false).1 (P "MainCategoryId") =
          _getMainCategory st (P "MainCategoryId") := by
        simp [_getMainCategory, _getFirstFoundEntity, getEntitySetData, createDraft_main]
      simp only [ha, hb]
      simp [hM]
    by_cases h16 : k = "WeightUnit"
    · subst h16
      refine extend_eq_of_agree P _ _ ?_
      rw [build_snd_apply]
      have ha : storedDraft st sid false "WeightUnit" =
          _getWeightUnit st (P "WeightUnit") := by
        simp [storedDraft, hgetP, fieldOf]
      have hb : _getWeightText (_createDraft st sid false).1
          (_getWeightUnit st (P "WeightUnit")) =
          _getWeightText st (_getWeightUnit st (P "WeightUnit")) := by
        simp [_getWeightText, _getFirstFoundEntity, getEntitySetData, createDraft_weight]
      simp only [ha, hb]
      simp [hW]
    by_cases h17 : k = "DimensionUnit"
    · subst h17
      refine extend_eq_of_agree P _ _ ?_
      rw [build_snd_apply]
      have ha : storedDraft st sid false "DimensionUnit" =
          _getDimensionUnit st (P "DimensionUnit") := by
        simp [storedDraft, hgetP, fieldOf]
      have hb : _getDimensionText (_createDraft st sid false).1
          (_getDimensionUnit st (P "DimensionUnit")) =
          _getDimensionText st (_getDimensionUnit st (P "DimensionUnit")) := by
        simp [_getDimensionText, _getFirstFoundEntity, getEntitySetData,
          createDraft_dimension]
      simp only [ha, hb]
      simp [hDim]
    by_cases h18 : k = "ImageUrl"
    · subst h18
      refine extend_eq_of_agree P _ _ ?_
      rw [build_snd_apply]
      simp [isNewFlag, hDnew, storedDraft, hgetP, fieldOf]
    refine extend_eq_of_agree P _ _ ?_
    rw [build_snd_apply]
    simp [storedDraft, hgetP, fieldOf, h1, h2, h3, h4, h5, h6, h7, h8, h9, h10, h11,
      h12, h13, h14, h15, h16, h17, h18]

/-- C2 witness: the round trip of the round trip product on the round trip store. -/
theorem C2_witness :
    ∃ st2 resp P2, editThenActivate RoundTripState "HT-1000" = some (st2, resp) ∧
      st2.products = [] ++ P2 :: [] ∧
      st2.products.length = RoundTripState.products.length ∧
      ∀ k, (RoundTripProduct k).isSome → P2 k = RoundTripProduct k :=
  C2_edit_roundtrip RoundTripState "HT-1000" RoundTripProduct [] []
    rfl (by simp) (by simp) rfl (by simp [RoundTripState]) rfl rfl rfl rfl rfl

end EPM
